import Mathlib

/-!
Verification of the session supervisor, inbound relay, outbound gateway and
liveness monitor of the jewelsteps-wppconnect server (src/index.js, the
production document starting at the second header comment).  All definitions
below are shallow embeddings of that file; line numbers in comments refer to
src/index.js.
-/

namespace JewelSteps

/-! ## Configuration constants (src/index.js lines 343-348, 374, 482, 566, 602) -/

/-- `MAX_RECONNECT_ATTEMPTS = 10` (line 374). -/
def MAX_RECONNECT_ATTEMPTS : Nat := 10

/-- Base backoff step, 5000 ms (`reconnectAttempts * 5000`, lines 482 and 575). -/
def BASE_RETRY_DELAY : Nat := 5000

/-- Backoff cap, 30000 ms (`Math.min(..., 30000)`, lines 482 and 575). -/
def MAX_RETRY_DELAY : Nat := 30000

/-- Liveness-check interval, 30000 ms (line 566). -/
def CONNECTION_CHECK_INTERVAL : Nat := 30000

/-- Default value of `SYNC_KEY` when the environment variable is unset:
`process.env.SYNC_KEY || ''` (line 345). -/
def SYNC_KEY_DEFAULT : String := ""

/-- Backoff delay computed at lines 482 and 575:
`const delay = Math.min(reconnectAttempts * 5000, 30000)`, where
`reconnectAttempts` is the counter value after its increment. -/
def reconnectDelay (attempts : Nat) : Nat := min (attempts * 5000) 30000

/-! ## Session supervisor state machine

Global mutable state of the server (lines 371-374): `client` (null until a
`wppconnect.create` succeeds), `isConnected`, `reconnectAttempts`.  In
addition we track the number of `setTimeout(initializeWhatsApp, delay)`
timers that are armed but have not fired (`pending`) and the number of
`initializeWhatsApp` calls currently in flight (`running`).  Handlers
(`onStateChange`, `onQRCode`, ...) exist only after some create succeeded,
recorded in `registered`. -/

structure SupState where
  attempts : Nat
  connected : Bool
  pending : Nat
  running : Nat
  registered : Bool
deriving Repr, DecidableEq

/-- Events delivered to the server by the adapter, the timers and the
in-flight `initializeWhatsApp` calls.  Each event corresponds to one
run-to-completion callback of the JavaScript event loop. -/
inductive SupEvent where
  | stateConnected
  | stateDisconnected
  | stateConflict
  | stateUnpaired
  | qrCode
  | retryTimerFires
  | createSucceeds
  | createFails
  | chromeMissing
  | livenessProbeFails
  | streamChange
deriving Repr, DecidableEq

/-- Liveness monitor tick (lines 557-566): the interval callback runs
`if (client && isConnected) { try { await client.checkConnection() } catch
{ isConnected = false } }`.  First component: state after the tick; second
component: whether the probe was invoked at all. -/
def livenessTick (s : SupState) (probeOk : Bool) : SupState × Bool :=
  if s.registered && s.connected then
    if probeOk then (s, true) else ({ s with connected := false }, true)
  else (s, false)

/-- One run-to-completion step of the server, embedding:
* lines 467-495 (`onStateChange`): `CONNECTED` sets the flag and resets the
  counter; `DISCONNECTED` clears the flag and, when the counter is below the
  maximum, increments it and arms one retry timer; `CONFLICT` and `UNPAIRED`
  only log;
* line 463 (`onQRCode`): resets the counter;
* a retry timer firing starts one more `initializeWhatsApp` call;
* lines 568-583 (catch block of `initializeWhatsApp`): increments the
  counter unconditionally, then arms a retry timer only when the new value
  is still below the maximum;
* lines 387-391: when Chrome is missing, `initializeWhatsApp` returns early
  with no retry and no counter change;
* lines 557-566: the liveness probe failing clears `isConnected`;
* lines 552-554 (`onStreamChange`): only logs.
Events whose callback does not exist yet (handlers before any create
succeeded) or whose trigger does not exist (no armed timer, no in-flight
call) leave the state unchanged. -/
def supStep (s : SupState) (e : SupEvent) : SupState :=
  match e with
  | .stateConnected =>
      if s.registered then { s with connected := true, attempts := 0 } else s
  | .stateDisconnected =>
      if s.registered then
        if s.attempts < MAX_RECONNECT_ATTEMPTS then
          { s with connected := false, attempts := s.attempts + 1,
                   pending := s.pending + 1 }
        else { s with connected := false }
      else s
  | .stateConflict => s
  | .stateUnpaired => s
  | .qrCode => if s.registered then { s with attempts := 0 } else s
  | .retryTimerFires =>
      if 0 < s.pending then
        { s with pending := s.pending - 1, running := s.running + 1 }
      else s
  | .createSucceeds =>
      if 0 < s.running then
        { s with running := s.running - 1, registered := true }
      else s
  | .createFails =>
      if 0 < s.running then
        if s.attempts + 1 < MAX_RECONNECT_ATTEMPTS then
          { s with running := s.running - 1, attempts := s.attempts + 1,
                   pending := s.pending + 1 }
        else { s with running := s.running - 1, attempts := s.attempts + 1 }
      else s
  | .chromeMissing =>
      if 0 < s.running then { s with running := s.running - 1 } else s
  | .livenessProbeFails => (livenessTick s false).1
  | .streamChange => s

/-- Process start (lines 767-783): the `app.listen` callback invokes
`initializeWhatsApp()` once, so exactly one call is in flight. -/
def supInit : SupState :=
  { attempts := 0, connected := false, pending := 0, running := 1,
    registered := false }

/-- State after delivering a list of events to the freshly started server. -/
def supRun (evs : List SupEvent) : SupState := evs.foldl supStep supInit

/-- Number of `initializeWhatsApp` calls in flight or scheduled. -/
def outstanding (s : SupState) : Nat := s.pending + s.running

/-- The two events that reset the attempt counter (`CONNECTED` at line 472,
QR generation at line 463).  A run in which the adapter keeps reporting
disconnection or initialization failure contains neither. -/
def isResetEvent : SupEvent → Bool
  | .stateConnected => true
  | .qrCode => true
  | _ => false

/-- Boolean form of "the adapter keeps reporting disconnection or
initialization failure": the trace has no counter-resetting event. -/
def noResetTrace (evs : List SupEvent) : Bool :=
  evs.all (fun e => !isResetEvent e)

/-! ## Inductive invariant of disconnect-only runs -/

/-- Inductive invariant of runs without counter resets.  `reg1` is 1 once a
create has succeeded.  The conjuncts bound how many retries can ever be
armed and how far the counter can climb. -/
def supInv (s : SupState) : Prop :=
  (s.pending + s.running + (if s.registered then 1 else 0) ≤ 1 + s.attempts)
  ∧ (s.pending + s.running + (if s.registered then 1 else 0)
      ≤ 1 + MAX_RECONNECT_ATTEMPTS)
  ∧ (s.attempts + s.pending + s.running + (if s.registered then 1 else 0)
      ≤ 2 * MAX_RECONNECT_ATTEMPTS + 1)
  ∧ (s.registered = false →
      s.pending + s.running ≤ 1
      ∧ s.attempts + s.pending + s.running ≤ MAX_RECONNECT_ATTEMPTS)

lemma supInv_init : supInv supInit := by
  simp [supInv, supInit, MAX_RECONNECT_ATTEMPTS]

lemma supInv_preserved (s : SupState) (e : SupEvent) (hs : supInv s)
    (he : isResetEvent e = false) : supInv (supStep s e) := by
  obtain ⟨a, conn, p, r, reg⟩ := s
  simp only [supInv, MAX_RECONNECT_ATTEMPTS] at hs
  cases e with
  | stateConnected => simp [isResetEvent] at he
  | qrCode => simp [isResetEvent] at he
  | stateDisconnected =>
      cases reg <;>
        simp_all [supStep, supInv, MAX_RECONNECT_ATTEMPTS] <;>
        split_ifs <;> simp_all <;> omega
  | stateConflict => exact hs
  | stateUnpaired => exact hs
  | retryTimerFires =>
      cases reg <;>
        simp_all [supStep, supInv, MAX_RECONNECT_ATTEMPTS] <;>
        split_ifs <;> simp_all <;> omega
  | createSucceeds =>
      cases reg <;>
        simp_all [supStep, supInv, MAX_RECONNECT_ATTEMPTS] <;>
        split_ifs <;> simp_all <;> omega
  | createFails =>
      cases reg <;>
        simp_all [supStep, supInv, MAX_RECONNECT_ATTEMPTS] <;>
        split_ifs <;> simp_all <;> omega
  | chromeMissing =>
      cases reg <;>
        simp_all [supStep, supInv, MAX_RECONNECT_ATTEMPTS] <;>
        split_ifs <;> simp_all <;> omega
  | livenessProbeFails =>
      cases reg <;> cases conn <;>
        simp_all [supStep, livenessTick, supInv, MAX_RECONNECT_ATTEMPTS]
  | streamChange => exact hs

lemma supInv_foldl (evs : List SupEvent) :
    ∀ s : SupState, supInv s → noResetTrace evs = true →
      supInv (evs.foldl supStep s) := by
  induction evs with
  | nil => intro s hs _; exact hs
  | cons e evs ih =>
      intro s hs hall
      simp only [noResetTrace, List.all_cons, Bool.and_eq_true,
        Bool.not_eq_true'] at hall
      simpa using ih (supStep s e) (supInv_preserved s e hs hall.1)
        (by simpa [noResetTrace] using hall.2)

lemma attempts_le_of_supInv (s : SupState) (hs : supInv s) :
    s.attempts ≤ 2 * MAX_RECONNECT_ATTEMPTS := by
  obtain ⟨h1, h2, h3, h4⟩ := hs
  by_cases hr : s.registered <;>
    simp_all [MAX_RECONNECT_ATTEMPTS] <;> omega

lemma pending_stable_of_max (s : SupState) (e : SupEvent)
    (he : isResetEvent e = false) (ha : MAX_RECONNECT_ATTEMPTS ≤ s.attempts) :
    (supStep s e).pending ≤ s.pending
      ∧ MAX_RECONNECT_ATTEMPTS ≤ (supStep s e).attempts := by
  obtain ⟨a, conn, p, r, reg⟩ := s
  simp only [MAX_RECONNECT_ATTEMPTS] at ha
  cases e <;> cases reg <;> cases conn <;>
    simp_all [supStep, livenessTick, isResetEvent, MAX_RECONNECT_ATTEMPTS] <;>
    split_ifs <;> simp_all <;> omega

lemma pending_foldl_of_max (evs : List SupEvent) :
    ∀ s : SupState, noResetTrace evs = true →
      MAX_RECONNECT_ATTEMPTS ≤ s.attempts →
      (evs.foldl supStep s).pending ≤ s.pending := by
  induction evs with
  | nil => intro s _ _; simp
  | cons e evs ih =>
      intro s hall ha
      simp only [noResetTrace, List.all_cons, Bool.and_eq_true,
        Bool.not_eq_true'] at hall
      have hstep := pending_stable_of_max s e hall.1 ha
      calc ((e :: evs).foldl supStep s).pending
          = (evs.foldl supStep (supStep s e)).pending := by simp
        _ ≤ (supStep s e).pending :=
            ih (supStep s e) (by simpa [noResetTrace] using hall.2) hstep.2
        _ ≤ s.pending := hstep.1

/-- Trace refuting the first half of claim C1: after a successful create,
ten DISCONNECTED reports arm ten retries and drive the counter to the
maximum; the next retry then fires and fails, and the catch block at line
573 increments the counter past the maximum. -/
def c1Trace : List SupEvent :=
  [.createSucceeds] ++ List.replicate 10 .stateDisconnected
    ++ [.retryTimerFires, .createFails]

/-- Trace refuting claim C3: after a successful create, two consecutive
DISCONNECTED reports each arm a retry timer (lines 480-486), so two
`initializeWhatsApp` calls end up scheduled at once. -/
def c3Trace : List SupEvent :=
  [.createSucceeds, .stateDisconnected, .stateDisconnected]

/-- State after the first create succeeded and the adapter reported
CONNECTED. -/
def connectedState : SupState := supRun [.createSucceeds, .stateConnected]

/-! ## Outbound gateway: POST /send-message (lines 634-702) -/

/-- JavaScript truthiness of an optional string request field: `!x` holds
when the field is absent or the empty string. -/
def jsFalsy : Option String → Bool
  | none => true
  | some s => s == ""

/-- `phone.replace(/[^0-9]/g, '')` (line 665): keep exactly the characters
0-9. -/
def digitsOnly (s : String) : String := String.mk (s.data.filter Char.isDigit)

/-- Body of a POST /send-message request: `const { key, phone, message } =
req.body` (line 636). -/
structure SendRequest where
  key : Option String
  phone : Option String
  message : Option String
deriving Repr, DecidableEq

/-- Outcome of the /send-message handler, one constructor per response the
handler can produce (ignoring the outer catch, which no modelled operation
can reach). -/
inductive GatewayResult where
  | unauthorized
  | missingFields
  | notConnected
  | invalidPhone
  | sendFailed (err : String)
  | sent (phone : String)
deriving Repr, DecidableEq

/-- HTTP status attached to each outcome (lines 641, 649, 657, 668, 689,
682). -/
def statusOf : GatewayResult → Nat
  | .unauthorized => 401
  | .missingFields => 400
  | .notConnected => 503
  | .invalidPhone => 400
  | .sendFailed _ => 500
  | .sent _ => 200

/-- The /send-message handler (lines 634-702), in the source's order:
1. `if (!key || key !== SYNC_KEY)` → 401 (line 639);
2. `if (!phone || !message)` → 400 (line 648);
3. `if (!client || !isConnected)` → 503 (line 656);
4. normalize the phone and `if (formattedPhone.length < 10)` → 400
   (line 667);
5. `client.sendText(chatId, message)` → 200 echoing the normalized phone,
   or 500 with the send error (lines 678-693).
`sendText` abstracts the adapter's send operation; `clientExists` is
`client !== null` and `connected` is `isConnected`. -/
def sendMessageHandler (syncKey : String) (clientExists connected : Bool)
    (sendText : String → String → Except String Unit)
    (req : SendRequest) : GatewayResult :=
  if jsFalsy req.key || (req.key.getD "" != syncKey) then .unauthorized
  else if jsFalsy req.phone || jsFalsy req.message then .missingFields
  else if !clientExists || !connected then .notConnected
  else
    if (digitsOnly (req.phone.getD "")).length < 10 then .invalidPhone
    else
      match sendText (digitsOnly (req.phone.getD "") ++ "@c.us")
          (req.message.getD "") with
      | .ok _ => .sent (digitsOnly (req.phone.getD ""))
      | .error e => .sendFailed e

/-! ## Timestamp rendering (lines 527-529)

`new Date(ts * 1000).toISOString().slice(0, 19).replace('T', ' ')` renders
the epoch-second timestamp as `YYYY-MM-DD HH:MM:SS` in UTC.  The calendar
computation below is the standard days-to-civil-date algorithm that
ECMAScript's UTC date accessors implement. -/

/-- Decimal digit character for `n < 10`. -/
def natDigitChar (n : Nat) : Char := Char.ofNat (48 + n)

/-- Decimal digits of `n`, most significant first; the first argument is
fuel bounding the recursion depth. -/
def natDecDigitsAux : Nat → Nat → List Char
  | 0, _ => []
  | fuel + 1, n =>
      if n < 10 then [natDigitChar n]
      else natDecDigitsAux fuel (n / 10) ++ [natDigitChar (n % 10)]

/-- Decimal digits of `n`, most significant first. -/
def natDecDigits (n : Nat) : List Char := natDecDigitsAux (n + 1) n

/-- Render `n` zero-padded to (at least) two characters. -/
def pad2 (n : Nat) : List Char :=
  if n < 10 then '0' :: natDecDigits n else natDecDigits n

/-- Render `n` zero-padded to (at least) four characters. -/
def pad4 (n : Nat) : List Char :=
  if n < 10 then '0' :: '0' :: '0' :: natDecDigits n
  else if n < 100 then '0' :: '0' :: natDecDigits n
  else if n < 1000 then '0' :: natDecDigits n
  else natDecDigits n

/-- Era index of day `z` counted from 0000-03-01 (day 0 is 1970-01-01
shifted by 719468). -/
def eraOf (z : Nat) : Nat := z / 146097

/-- Day of era. -/
def doeOf (z : Nat) : Nat := z % 146097

/-- Year of era from the day of era. -/
def yoeOf (doe : Nat) : Nat :=
  (doe - doe / 1460 + doe / 36524 - doe / 146096) / 365

/-- Day of the (March-based) year from the day of era. -/
def doyOf (doe : Nat) : Nat :=
  doe - (365 * yoeOf doe + yoeOf doe / 4 - yoeOf doe / 100)

/-- Month index in the March-based year. -/
def mpOf (doy : Nat) : Nat := (5 * doy + 2) / 153

/-- Day of month. -/
def dayOf (doy : Nat) : Nat := doy - (153 * mpOf doy + 2) / 5 + 1

/-- Calendar month (1..12). -/
def monthOf (doy : Nat) : Nat :=
  if mpOf doy < 10 then mpOf doy + 3 else mpOf doy - 9

/-- Calendar year for the day count `days` since 1970-01-01. -/
def yearOf (days : Nat) : Nat :=
  eraOf (days + 719468) * 400 + yoeOf (doeOf (days + 719468)) +
    (if monthOf (doyOf (doeOf (days + 719468))) ≤ 2 then 1 else 0)

/-- Civil (year, month, day) in UTC for the day count since 1970-01-01. -/
def civilFromDays (days : Nat) : Nat × Nat × Nat :=
  (yearOf days,
   monthOf (doyOf (doeOf (days + 719468))),
   dayOf (doyOf (doeOf (days + 719468))))

/-- Characters of the rendered timestamp `YYYY-MM-DD HH:MM:SS` for the
epoch-second value `t`. -/
def epochToTimestampChars (t : Nat) : List Char :=
  pad4 (civilFromDays (t / 86400)).1 ++ '-' ::
    pad2 (civilFromDays (t / 86400)).2.1 ++ '-' ::
    pad2 (civilFromDays (t / 86400)).2.2 ++ ' ' ::
    pad2 (t / 3600 % 24) ++ ':' ::
    pad2 (t / 60 % 60) ++ ':' ::
    pad2 (t % 60)

/-- Rendered timestamp `YYYY-MM-DD HH:MM:SS` for the epoch-second value
`t`, as produced at lines 527-529. -/
def epochToTimestamp (t : Nat) : String := String.mk (epochToTimestampChars t)

/-- Recognizer for the fixed textual form `YYYY-MM-DD HH:MM:SS`. -/
def isTsFormat : List Char → Bool
  | [y1, y2, y3, y4, s1, m1, m2, s2, d1, d2, s3, h1, h2, s4, n1, n2, s5,
     c1, c2] =>
      y1.isDigit && y2.isDigit && y3.isDigit && y4.isDigit && (s1 == '-') &&
      m1.isDigit && m2.isDigit && (s2 == '-') && d1.isDigit && d2.isDigit &&
      (s3 == ' ') && h1.isDigit && h2.isDigit && (s4 == ':') &&
      n1.isDigit && n2.isDigit && (s5 == ':') && c1.isDigit && c2.isDigit
  | _ => false

/-! ### Shape of the rendered timestamp -/

lemma natDigitChar_isDigit (n : Nat) (h : n < 10) :
    (natDigitChar n).isDigit = true := by
  interval_cases n <;> decide

lemma natDecDigitsAux_digits (f : Nat) :
    ∀ n, ∀ c ∈ natDecDigitsAux f n, c.isDigit = true := by
  induction f with
  | zero => intro n c hc; simp [natDecDigitsAux] at hc
  | succ f ih =>
      intro n c hc
      by_cases h : n < 10
      · simp [natDecDigitsAux, h] at hc
        subst hc
        exact natDigitChar_isDigit n h
      · simp [natDecDigitsAux, h] at hc
        rcases hc with hc | hc
        · exact ih (n / 10) c hc
        · subst hc
          exact natDigitChar_isDigit (n % 10) (Nat.mod_lt _ (by omega))

lemma natDecDigitsAux_small (f n : Nat) (hf : 0 < f) (h : n < 10) :
    natDecDigitsAux f n = [natDigitChar n] := by
  cases f with
  | zero => omega
  | succ f => simp [natDecDigitsAux, h]

lemma natDecDigitsAux_two (f n : Nat) (hf : n < f) (h1 : 10 ≤ n)
    (h2 : n < 100) :
    natDecDigitsAux f n = [natDigitChar (n / 10), natDigitChar (n % 10)] := by
  cases f with
  | zero => omega
  | succ f =>
      have e1 : natDecDigitsAux (f + 1) n
          = natDecDigitsAux f (n / 10) ++ [natDigitChar (n % 10)] := by
        simp [natDecDigitsAux, show ¬ n < 10 by omega]
      rw [e1, natDecDigitsAux_small f (n / 10) (by omega) (by omega)]
      rfl

lemma natDecDigitsAux_three (f n : Nat) (hf : n < f) (h1 : 100 ≤ n)
    (h2 : n < 1000) :
    natDecDigitsAux f n
      = [natDigitChar (n / 10 / 10), natDigitChar (n / 10 % 10),
         natDigitChar (n % 10)] := by
  cases f with
  | zero => omega
  | succ f =>
      have e1 : natDecDigitsAux (f + 1) n
          = natDecDigitsAux f (n / 10) ++ [natDigitChar (n % 10)] := by
        simp [natDecDigitsAux, show ¬ n < 10 by omega]
      rw [e1, natDecDigitsAux_two f (n / 10) (by omega) (by omega) (by omega)]
      rfl

lemma natDecDigitsAux_four (f n : Nat) (hf : n < f) (h1 : 1000 ≤ n)
    (h2 : n < 10000) :
    natDecDigitsAux f n
      = [natDigitChar (n / 10 / 10 / 10), natDigitChar (n / 10 / 10 % 10),
         natDigitChar (n / 10 % 10), natDigitChar (n % 10)] := by
  cases f with
  | zero => omega
  | succ f =>
      have e1 : natDecDigitsAux (f + 1) n
          = natDecDigitsAux f (n / 10) ++ [natDigitChar (n % 10)] := by
        simp [natDecDigitsAux, show ¬ n < 10 by omega]
      rw [e1,
        natDecDigitsAux_three f (n / 10) (by omega) (by omega) (by omega)]
      rfl

lemma pad2_length (n : Nat) (h : n < 100) : (pad2 n).length = 2 := by
  unfold pad2 natDecDigits
  split_ifs with h10
  · rw [natDecDigitsAux_small (n + 1) n (by omega) h10]
    rfl
  · rw [natDecDigitsAux_two (n + 1) n (by omega) (by omega) h]
    rfl

lemma pad2_digits (n : Nat) (h : n < 100) :
    ∀ c ∈ pad2 n, c.isDigit = true := by
  intro c hc
  unfold pad2 natDecDigits at hc
  split_ifs at hc with h10
  · rcases List.mem_cons.mp hc with hc | hc
    · subst hc; decide
    · exact natDecDigitsAux_digits _ _ c hc
  · exact natDecDigitsAux_digits _ _ c hc

lemma pad4_length (n : Nat) (h : n < 10000) : (pad4 n).length = 4 := by
  unfold pad4 natDecDigits
  split_ifs with ha hb hc
  · rw [natDecDigitsAux_small (n + 1) n (by omega) ha]
    rfl
  · rw [natDecDigitsAux_two (n + 1) n (by omega) (by omega) hb]
    rfl
  · rw [natDecDigitsAux_three (n + 1) n (by omega) (by omega) hc]
    rfl
  · rw [natDecDigitsAux_four (n + 1) n (by omega) (by omega) h]
    rfl

lemma pad4_digits (n : Nat) (h : n < 10000) :
    ∀ c ∈ pad4 n, c.isDigit = true := by
  intro c hc
  unfold pad4 natDecDigits at hc
  split_ifs at hc with ha hb hd
  · rcases List.mem_cons.mp hc with hc | hc
    · subst hc; decide
    · rcases List.mem_cons.mp hc with hc | hc
      · subst hc; decide
      · rcases List.mem_cons.mp hc with hc | hc
        · subst hc; decide
        · exact natDecDigitsAux_digits _ _ c hc
  · rcases List.mem_cons.mp hc with hc | hc
    · subst hc; decide
    · rcases List.mem_cons.mp hc with hc | hc
      · subst hc; decide
      · exact natDecDigitsAux_digits _ _ c hc
  · rcases List.mem_cons.mp hc with hc | hc
    · subst hc; decide
    · exact natDecDigitsAux_digits _ _ c hc
  · exact natDecDigitsAux_digits _ _ c hc

lemma list_eq_pair {α : Type} (l : List α) (h : l.length = 2) :
    ∃ a b, l = [a, b] := by
  cases l with
  | nil => simp at h
  | cons a t =>
      cases t with
      | nil => simp at h
      | cons b t2 =>
          cases t2 with
          | nil => exact ⟨a, b, rfl⟩
          | cons c t3 => simp at h

lemma list_eq_quad {α : Type} (l : List α) (h : l.length = 4) :
    ∃ a b c d, l = [a, b, c, d] := by
  cases l with
  | nil => simp at h
  | cons a t =>
      cases t with
      | nil => simp at h
      | cons b t2 =>
          cases t2 with
          | nil => simp at h
          | cons c t3 =>
              cases t3 with
              | nil => simp at h
              | cons d t4 =>
                  cases t4 with
                  | nil => exact ⟨a, b, c, d, rfl⟩
                  | cons e t5 => simp at h

lemma isTsFormat_build (Y M D H N S : List Char)
    (hY : Y.length = 4) (hM : M.length = 2) (hD : D.length = 2)
    (hH : H.length = 2) (hN : N.length = 2) (hS : S.length = 2)
    (dY : ∀ c ∈ Y, c.isDigit = true) (dM : ∀ c ∈ M, c.isDigit = true)
    (dD : ∀ c ∈ D, c.isDigit = true) (dH : ∀ c ∈ H, c.isDigit = true)
    (dN : ∀ c ∈ N, c.isDigit = true) (dS : ∀ c ∈ S, c.isDigit = true) :
    isTsFormat (Y ++ '-' :: M ++ '-' :: D ++ ' ' :: H ++ ':' :: N
      ++ ':' :: S) = true := by
  obtain ⟨y1, y2, y3, y4, rfl⟩ := list_eq_quad Y hY
  obtain ⟨m1, m2, rfl⟩ := list_eq_pair M hM
  obtain ⟨d1, d2, rfl⟩ := list_eq_pair D hD
  obtain ⟨h1, h2, rfl⟩ := list_eq_pair H hH
  obtain ⟨n1, n2, rfl⟩ := list_eq_pair N hN
  obtain ⟨c1, c2, rfl⟩ := list_eq_pair S hS
  simp only [List.cons_append, List.nil_append]
  simp only [List.mem_cons, List.not_mem_nil, or_false, forall_eq_or_imp,
    forall_eq] at dY dM dD dH dN dS
  simp [isTsFormat, dY.1, dY.2.1, dY.2.2.1, dY.2.2.2, dM.1, dM.2,
    dD.1, dD.2, dH.1, dH.2, dN.1, dN.2, dS.1, dS.2]

/-! ### Bounds for the civil-date computation -/

lemma yoeOf_le (doe : Nat) (h : doe < 146097) : yoeOf doe ≤ 399 := by
  unfold yoeOf
  omega

lemma doyOf_le (doe : Nat) (h : doe < 146097) : doyOf doe ≤ 500 := by
  unfold doyOf yoeOf
  omega

lemma monthOf_bound (doy : Nat) (h : doy ≤ 500) : monthOf doy < 100 := by
  unfold monthOf
  split_ifs with hmp
  · omega
  · unfold mpOf
    omega

lemma dayOf_bound (doy : Nat) (h : doy ≤ 500) : dayOf doy < 100 := by
  unfold dayOf mpOf
  omega

lemma yearOf_lt (days : Nat) (h : days ≤ 2932896) : yearOf days < 10000 := by
  have hdoe : doeOf (days + 719468) < 146097 := by
    unfold doeOf
    exact Nat.mod_lt _ (by omega)
  have hyoe := yoeOf_le _ hdoe
  have hera : eraOf (days + 719468) ≤ 24 := by
    unfold eraOf
    omega
  unfold yearOf
  by_cases hm : monthOf (doyOf (doeOf (days + 719468))) ≤ 2
  · rw [if_pos hm]
    by_cases h24 : eraOf (days + 719468) = 24
    · have hdoe2 : doeOf (days + 719468) ≤ 146036 := by
        unfold eraOf at h24
        unfold doeOf
        omega
      have hdoy306 : 306 ≤ doyOf (doeOf (days + 719468)) := by
        have hdoy := doyOf_le _ hdoe
        unfold monthOf at hm
        split_ifs at hm with hmp
        · omega
        · unfold mpOf at hmp
          omega
      have hy398 : yoeOf (doeOf (days + 719468)) ≤ 398 := by
        revert hdoy306 hdoe2
        unfold doyOf yoeOf doeOf
        omega
      omega
    · omega
  · rw [if_neg hm]
    omega

/-- Every timestamp the relay renders for an epoch before the year 10000 is
in the fixed `YYYY-MM-DD HH:MM:SS` textual form. -/
lemma epoch_format (t : Nat) (ht : t < 253402300800) :
    isTsFormat (epochToTimestampChars t) = true := by
  have hdoe : doeOf (t / 86400 + 719468) < 146097 := by
    unfold doeOf
    exact Nat.mod_lt _ (by omega)
  have hdoy := doyOf_le _ hdoe
  unfold epochToTimestampChars civilFromDays
  simp only []
  exact isTsFormat_build _ _ _ _ _ _
    (pad4_length _ (yearOf_lt _ (by omega)))
    (pad2_length _ (monthOf_bound _ hdoy))
    (pad2_length _ (dayOf_bound _ hdoy))
    (pad2_length _ (by omega))
    (pad2_length _ (by omega))
    (pad2_length _ (by omega))
    (pad4_digits _ (yearOf_lt _ (by omega)))
    (pad2_digits _ (monthOf_bound _ hdoy))
    (pad2_digits _ (dayOf_bound _ hdoy))
    (pad2_digits _ (by omega))
    (pad2_digits _ (by omega))
    (pad2_digits _ (by omega))

/-! ## Inbound relay: client.onMessage (lines 498-549) -/

/-- Whether the pattern list is a prefix of the subject list. -/
def listStartsWith : List Char → List Char → Bool
  | [], _ => true
  | _ :: _, [] => false
  | p :: ps, c :: cs => p == c && listStartsWith ps cs

/-- Remove the first occurrence of `pat` from the subject list, leaving the
subject unchanged when `pat` does not occur. -/
def removeFirstList (pat : List Char) : List Char → List Char
  | [] => []
  | c :: cs =>
      if listStartsWith pat (c :: cs) then (c :: cs).drop pat.length
      else c :: removeFirstList pat cs

/-- JavaScript `s.replace(pat, '')` for a plain-string pattern: only the
first occurrence is removed (line 506: `message.from.replace('@c.us', '')`).
-/
def replaceFirstWithEmpty (s pat : String) : String :=
  String.mk (removeFirstList pat.data s.data)

/-- JavaScript truthiness of an optional numeric field: `0` and a missing
value are falsy (line 527: `message.timestamp ? ... : ...`). -/
def jsFalsyNat : Option Nat → Bool
  | none => true
  | some n => n == 0

/-- JavaScript `a || b` for an optional string `a` and a string default. -/
def jsOr (a : Option String) (b : String) : String :=
  if jsFalsy a then b else a.getD ""

/-- Inbound message event produced by the adapter.  `mfrom` embeds
`message.from`; `lat`/`lng` stand for the rendered coordinates of a
location message; `timestamp` is epoch seconds. -/
structure InboundMessage where
  isGroupMsg : Bool
  mfrom : String
  body : Option String
  caption : Option String
  mtype : Option String
  filename : Option String
  lat : String
  lng : String
  timestamp : Option Nat
deriving Repr, DecidableEq

/-- Body-extraction cascade of the onMessage handler (lines 509-524). -/
def extractText (msg : InboundMessage) : String :=
  if !jsFalsy msg.body then msg.body.getD ""
  else if !jsFalsy msg.caption then msg.caption.getD ""
  else if msg.mtype == some "ptt" || msg.mtype == some "audio" then
    "[Audio Message]"
  else if msg.mtype == some "image" || msg.mtype == some "video" then
    jsOr msg.caption "[Media Message]"
  else if msg.mtype == some "document" then
    jsOr msg.caption ("[Document: " ++ jsOr msg.filename "File" ++ "]")
  else if msg.mtype == some "location" then
    "[Location: " ++ msg.lat ++ ", " ++ msg.lng ++ "]"
  else "[" ++ jsOr msg.mtype "Unsupported" ++ " Message]"

/-- Payload POSTed to the CRM webhook (lines 534-540). -/
structure RelayPayload where
  sync_key : String
  phone : String
  message : String
  sender : String
  timestamp : String
deriving Repr, DecidableEq

/-- The onMessage handler up to the webhook call (lines 498-540): group and
broadcast events are dropped (line 501); otherwise the sender address is
stripped of `@c.us`, the body is extracted, the timestamp is rendered from
epoch seconds (or from the current time `now` when absent or zero), and the
relay payload is assembled with `sender: 'customer'` and the process-wide
sync key. -/
def onMessageHandler (syncKey now : String) (msg : InboundMessage) :
    Option RelayPayload :=
  if msg.isGroupMsg || (msg.mfrom == "status@broadcast") then none
  else some
    { sync_key := syncKey
      phone := replaceFirstWithEmpty msg.mfrom "@c.us"
      message := extractText msg
      sender := "customer"
      timestamp :=
        if jsFalsyNat msg.timestamp then now
        else epochToTimestamp (msg.timestamp.getD 0) }

/-- The concrete inbound event of the spec's example: body "Hi", sender
"919999999999@c.us", epoch 1700000000. -/
def exampleInbound : InboundMessage :=
  { isGroupMsg := false, mfrom := "919999999999@c.us", body := some "Hi",
    caption := none, mtype := some "chat", filename := none, lat := "",
    lng := "", timestamp := some 1700000000 }

/-! ## Webhook delivery: sendToCRM (lines 595-623) -/

/-- Observable outcome of the single webhook POST: an HTTP response with
some status, no response at all, or a request-setup error. -/
inductive WebhookOutcome where
  | response (status : Nat)
  | networkError (msg : String)
  | otherError (msg : String)
deriving Repr, DecidableEq

/-- Rejection reasons of the axios promise. -/
inductive AxiosFailure where
  | httpError (status : Nat)
  | noResponse (msg : String)
  | setupError (msg : String)
deriving Repr, DecidableEq

/-- `axios.post` under `validateStatus: (status) => status < 500`
(line 603): a response with status below 500 resolves with that status; a
response at 500 or above rejects with `error.response` set; network and
setup errors reject. -/
def axiosPost (oc : WebhookOutcome) : Except AxiosFailure Nat :=
  match oc with
  | .response s => if s < 500 then .ok s else .error (.httpError s)
  | .networkError m => .error (.noResponse m)
  | .otherError m => .error (.setupError m)

/-- `sendToCRM` (lines 595-623): resolves to `true` only on status 200;
every other resolved status logs and returns `false`; every rejection is
caught, logged by branch, and returns `false`.  The `Except String` layer
records whether an exception escapes the function: it never does. -/
def sendToCRM (oc : WebhookOutcome) : Except String Bool :=
  match axiosPost oc with
  | .ok s => if s = 200 then .ok true else .ok false
  | .error _ => .ok false

/-- Full inbound handler including the webhook call and the surrounding
try/catch (lines 498-548): returns `none` for dropped events, otherwise the
delivery result; the outer catch (line 546) turns any escaping exception
into a logged no-op, so the handler itself never throws. -/
def onMessageRelay (syncKey now : String) (msg : InboundMessage)
    (oc : WebhookOutcome) : Except String (Option Bool) :=
  match
    (match onMessageHandler syncKey now msg with
     | none => Except.ok none
     | some _ => (sendToCRM oc).map some) with
  | .ok v => .ok v
  | .error _ => .ok none

/-- Number of webhook POST attempts the handler makes for one inbound
event: one for a forwarded event, zero for a dropped one, never more (no
retry). -/
def webhookAttempts (syncKey now : String) (msg : InboundMessage) : Nat :=
  match onMessageHandler syncKey now msg with
  | none => 0
  | some _ => 1

/-! ### Address normalization on digits-plus-suffix senders -/

lemma at_beq_digit (c : Char) (hc : c.isDigit = true) : ('@' == c) = false := by
  apply beq_eq_false_iff_ne.mpr
  intro h
  rw [← h] at hc
  exact absurd hc (by decide)

lemma removeFirstList_strip (dl : List Char)
    (hd : ∀ c ∈ dl, c.isDigit = true) :
    removeFirstList ('@' :: 'c' :: '.' :: 'u' :: 's' :: [])
      (dl ++ '@' :: 'c' :: '.' :: 'u' :: 's' :: []) = dl := by
  induction dl with
  | nil => rfl
  | cons c cs ih =>
      have hc : c.isDigit = true := hd c (List.mem_cons_self c cs)
      have hne := at_beq_digit c hc
      simp [removeFirstList, listStartsWith, hne,
        ih (fun x hx => hd x (List.mem_cons_of_mem _ hx))]

lemma strip_suffix_digits (d : String)
    (hd : ∀ c ∈ d.data, c.isDigit = true) :
    replaceFirstWithEmpty (d ++ "@c.us") "@c.us" = d := by
  unfold replaceFirstWithEmpty
  rw [show ("@c.us" : String).data = '@' :: 'c' :: '.' :: 'u' :: 's' :: []
      from rfl, String.data_append, removeFirstList_strip d.data hd]

lemma digits_ne_broadcast (d : String)
    (hd : ∀ c ∈ d.data, c.isDigit = true) :
    ((d ++ "@c.us") == "status@broadcast") = false := by
  apply beq_eq_false_iff_ne.mpr
  intro h
  have hdata := congrArg String.data h
  rw [String.data_append] at hdata
  cases hcd : d.data with
  | nil =>
      rw [hcd] at hdata
      exact absurd hdata (by decide)
  | cons c cs =>
      have hc : c.isDigit = true := by
        apply hd
        rw [hcd]
        exact List.mem_cons_self c cs
      have hhead := congrArg List.head? hdata
      rw [hcd] at hhead
      simp only [List.cons_append, List.head?_cons] at hhead
      rw [Option.some.injEq] at hhead
      rw [hhead] at hc
      exact absurd hc (by decide)

/-- Result of one webhook delivery attempt as the code computes it: `true`
exactly when the POST resolved with status 200. -/
def crmDelivered (oc : WebhookOutcome) : Bool :=
  match axiosPost oc with
  | .ok s => s == 200
  | .error _ => false

lemma sendToCRM_eq (oc : WebhookOutcome) :
    sendToCRM oc = .ok (crmDelivered oc) := by
  unfold sendToCRM crmDelivered
  cases axiosPost oc with
  | ok s => by_cases h : s = 200 <;> simp [h]
  | error e => rfl

/-! ## The claims -/

/-- Claim C1, counterexample: in a run where the adapter only ever reports
disconnection or initialization failure, the reconnect-attempt counter
exceeds the configured maximum of 10 — ten DISCONNECTED reports drive the
counter to 10 while arming retries, and the next retry's failure is counted
by the catch block (line 573) before the bound is checked, reaching 11. -/
theorem C1_counterexample :
    noResetTrace c1Trace = true
      ∧ MAX_RECONNECT_ATTEMPTS < (supRun c1Trace).attempts := by decide

/-- Claim C1 as amended: in every run in which the adapter keeps reporting
disconnection or initialization failure, the reconnect-attempt counter
never exceeds twice the configured maximum, and once the counter has
reached the maximum no further call to start() is ever scheduled (the
number of armed retry timers never increases again). -/
theorem C1_amended_holds :
    (∀ evs : List SupEvent, noResetTrace evs = true →
        (supRun evs).attempts ≤ 2 * MAX_RECONNECT_ATTEMPTS)
    ∧ (∀ (s : SupState) (evs : List SupEvent), noResetTrace evs = true →
        MAX_RECONNECT_ATTEMPTS ≤ s.attempts →
        (evs.foldl supStep s).pending ≤ s.pending) := by
  constructor
  · intro evs h
    exact attempts_le_of_supInv _ (supInv_foldl evs supInit supInv_init h)
  · intro s evs h ha
    exact pending_foldl_of_max evs s h ha

/-- Witness for the amended claim C1 at concrete inputs. -/
theorem C1_amended_witness :
    (supRun [SupEvent.createSucceeds, SupEvent.stateDisconnected]).attempts
        ≤ 2 * MAX_RECONNECT_ATTEMPTS
      ∧ ([SupEvent.stateDisconnected].foldl supStep
          { attempts := 10, connected := false, pending := 2, running := 0,
            registered := true }).pending ≤ 2 := by
  refine ⟨C1_amended_holds.1 _ (by decide), ?_⟩
  exact C1_amended_holds.2
    { attempts := 10, connected := false, pending := 2, running := 0,
      registered := true } [SupEvent.stateDisconnected]
    (by decide) (by decide)

/-- Claim C2: the reconnect delay computed at lines 482 and 575 equals
min(n × 5000 ms, 30000 ms) for counter value n, is monotone in n, is capped
at 30 s, and yields 5,10,15,20,25,30,30,30,30,30 seconds for n = 1..10. -/
theorem C2_delay_formula :
    (∀ n, reconnectDelay n = min (n * BASE_RETRY_DELAY) MAX_RETRY_DELAY)
    ∧ (∀ m n, m ≤ n → reconnectDelay m ≤ reconnectDelay n)
    ∧ (∀ n, reconnectDelay n ≤ MAX_RETRY_DELAY)
    ∧ (List.range MAX_RECONNECT_ATTEMPTS).map
        (fun i => reconnectDelay (i + 1))
      = [5000, 10000, 15000, 20000, 25000, 30000, 30000, 30000, 30000,
         30000] := by
  refine ⟨fun n => rfl, fun m n h => ?_, fun n => min_le_right _ _,
    by decide⟩
  exact min_le_min (Nat.mul_le_mul_right _ h) le_rfl

/-- Witness for claim C2's monotonicity at concrete inputs. -/
theorem C2_delay_witness : 3 ≤ 7 ∧ reconnectDelay 3 ≤ reconnectDelay 7 :=
  ⟨by decide, C2_delay_formula.2.1 3 7 (by decide)⟩

/-- Claim C3, violation: after a successful create, two consecutive
DISCONNECTED reports each arm a retry timer (lines 480-486; there is no
pending-retry guard), so two start() calls are scheduled at once. -/
theorem C3_two_retries_scheduled :
    outstanding (supRun c3Trace) = 2
      ∧ 1 < outstanding (supRun c3Trace) := by decide

/-- Claim C4, counterexample: with a valid key, both fields present, a
too-short phone and a disconnected session, the handler answers 503
NotConnected (line 656 runs before the phone-length check at line 667),
whereas the claim's stated order would answer 400 InvalidRequest. -/
theorem C4_counterexample :
    sendMessageHandler "k" true false (fun _ _ => .ok ())
        { key := some "k", phone := some "123", message := some "hello" }
      = .notConnected
    ∧ statusOf .notConnected = 503
    ∧ (digitsOnly "123").length < 10
    ∧ statusOf GatewayResult.notConnected ≠ statusOf .invalidPhone := by
  exact ⟨rfl, rfl, by decide, by decide⟩

/-- Claim C4 as amended: the gateway's checks run in the source's order —
401 when the secret is missing or mismatched, before anything else; then
400 when phone or message is missing; then 503 when the client is absent or
not connected; then 400 when the normalized phone has fewer than 10 digits;
otherwise the send runs, answering 500 with the adapter's error or 200 with
the normalized phone.  Stated as a full characterization of each outcome. -/
theorem C4_amended_holds :
    ∀ (k : String) (ce conn : Bool)
      (st : String → String → Except String Unit) (req : SendRequest),
      (sendMessageHandler k ce conn st req = .unauthorized
        ↔ (jsFalsy req.key || (req.key.getD "" != k)) = true)
      ∧ (sendMessageHandler k ce conn st req = .missingFields
        ↔ (jsFalsy req.key || (req.key.getD "" != k)) = false
          ∧ (jsFalsy req.phone || jsFalsy req.message) = true)
      ∧ (sendMessageHandler k ce conn st req = .notConnected
        ↔ (jsFalsy req.key || (req.key.getD "" != k)) = false
          ∧ (jsFalsy req.phone || jsFalsy req.message) = false
          ∧ (!ce || !conn) = true)
      ∧ (sendMessageHandler k ce conn st req = .invalidPhone
        ↔ (jsFalsy req.key || (req.key.getD "" != k)) = false
          ∧ (jsFalsy req.phone || jsFalsy req.message) = false
          ∧ (!ce || !conn) = false
          ∧ (digitsOnly (req.phone.getD "")).length < 10)
      ∧ (∀ e, sendMessageHandler k ce conn st req = .sendFailed e
        ↔ (jsFalsy req.key || (req.key.getD "" != k)) = false
          ∧ (jsFalsy req.phone || jsFalsy req.message) = false
          ∧ (!ce || !conn) = false
          ∧ ¬ (digitsOnly (req.phone.getD "")).length < 10
          ∧ st (digitsOnly (req.phone.getD "") ++ "@c.us")
              (req.message.getD "") = .error e)
      ∧ (∀ p, sendMessageHandler k ce conn st req = .sent p
        ↔ (jsFalsy req.key || (req.key.getD "" != k)) = false
          ∧ (jsFalsy req.phone || jsFalsy req.message) = false
          ∧ (!ce || !conn) = false
          ∧ ¬ (digitsOnly (req.phone.getD "")).length < 10
          ∧ digitsOnly (req.phone.getD "") = p
          ∧ st (digitsOnly (req.phone.getD "") ++ "@c.us")
              (req.message.getD "") = .ok ()) := by
  intro k ce conn st req
  unfold sendMessageHandler
  cases hb1 : (jsFalsy req.key || (req.key.getD "" != k)) with
  | true => simp [hb1]
  | false =>
      cases hb2 : (jsFalsy req.phone || jsFalsy req.message) with
      | true => simp [hb1, hb2]
      | false =>
          cases hb3 : (!ce || !conn) with
          | true => simp [hb1, hb2, hb3]
          | false =>
              by_cases hb4 : (digitsOnly (req.phone.getD "")).length < 10
              · simp [hb1, hb2, hb3, hb4]
              · cases hst : st (digitsOnly (req.phone.getD "") ++ "@c.us")
                    (req.message.getD "") with
                | ok u =>
                    cases u
                    simp [hb1, hb2, hb3, hb4, hst]
                | error e =>
                    simp [hb1, hb2, hb3, hb4, hst]

/-- Claim C5: every forwarded inbound event whose sender is a digits-only
address followed by the `@c.us` suffix and whose epoch timestamp is present,
positive and before the year 10000 yields a relay payload whose address is
the digits-only sender, whose sender field is "customer", whose secret is
the process-wide key and whose timestamp is in the fixed
`YYYY-MM-DD HH:MM:SS` form; in particular the spec's concrete example
produces exactly the expected payload. -/
theorem C5_relay_invariant :
    (∀ (k now : String) (msg : InboundMessage) (d : String) (t : Nat),
      msg.isGroupMsg = false →
      msg.mfrom = d ++ "@c.us" →
      (∀ c ∈ d.data, c.isDigit = true) →
      msg.timestamp = some t → 0 < t → t < 253402300800 →
      onMessageHandler k now msg
        = some { sync_key := k, phone := d, message := extractText msg,
                 sender := "customer", timestamp := epochToTimestamp t }
        ∧ isTsFormat (epochToTimestamp t).data = true)
    ∧ (∀ k now : String,
        onMessageHandler k now exampleInbound
          = some { sync_key := k, phone := "919999999999", message := "Hi",
                   sender := "customer",
                   timestamp := "2023-11-14 22:13:20" }) := by
  constructor
  · intro k now msg d t hg hf hd ht htpos htlt
    constructor
    · unfold onMessageHandler
      rw [hg, hf, digits_ne_broadcast d hd]
      have htz : (t == 0) = false := beq_eq_false_iff_ne.mpr (by omega)
      rw [strip_suffix_digits d hd, ht]
      simp [jsFalsyNat, htz]
    · exact epoch_format t htlt
  · intro k now
    rfl

/-- Witness for claim C5 at the spec's concrete example. -/
theorem C5_relay_witness :
    onMessageHandler "K" "NOW" exampleInbound
      = some { sync_key := "K", phone := "919999999999",
               message := extractText exampleInbound, sender := "customer",
               timestamp := epochToTimestamp 1700000000 }
    ∧ isTsFormat (epochToTimestamp 1700000000).data = true :=
  C5_relay_invariant.1 "K" "NOW" exampleInbound "919999999999" 1700000000
    rfl (by decide) (by decide) rfl (by decide) (by decide)

/-- Claim C6: every non-2xx webhook response and every network or setup
error is a delivery failure — `sendToCRM` returns `false` rather than
throwing, the inbound handler makes exactly one delivery attempt per
forwarded event, no exception escapes the handler, and an HTTP 500 response
in particular yields a logged failure without crashing the handler. -/
theorem C6_webhook_failure_handling :
    (∀ s : Nat, s < 200 ∨ 300 ≤ s → sendToCRM (.response s) = .ok false)
    ∧ (∀ m : String, sendToCRM (.networkError m) = .ok false
        ∧ sendToCRM (.otherError m) = .ok false)
    ∧ (∀ oc : WebhookOutcome, ∃ b, sendToCRM oc = .ok b)
    ∧ (∀ (k now : String) (msg : InboundMessage) (oc : WebhookOutcome),
        ∃ v, onMessageRelay k now msg oc = .ok v)
    ∧ (∀ (k now : String) (msg : InboundMessage),
        webhookAttempts k now msg ≤ 1)
    ∧ (∀ k now : String,
        onMessageRelay k now exampleInbound (.response 500)
          = .ok (some false)) := by
  refine ⟨?_, fun m => ⟨rfl, rfl⟩, fun oc => ⟨crmDelivered oc,
    sendToCRM_eq oc⟩, ?_, ?_, fun k now => rfl⟩
  · intro s hs
    unfold sendToCRM axiosPost
    by_cases h5 : s < 500
    · simp [h5, show s ≠ 200 by omega]
    · simp [h5]
  · intro k now msg oc
    unfold onMessageRelay
    cases h : onMessageHandler k now msg with
    | none => exact ⟨none, rfl⟩
    | some p =>
        rw [sendToCRM_eq]
        exact ⟨some (crmDelivered oc), rfl⟩
  · intro k now msg
    unfold webhookAttempts
    cases onMessageHandler k now msg <;> simp

/-- Witness for claim C6 at concrete statuses. -/
theorem C6_webhook_witness :
    ((500 : Nat) < 200 ∨ 300 ≤ 500) ∧ sendToCRM (.response 500) = .ok false
      ∧ sendToCRM (.response 404) = .ok false :=
  ⟨by decide, C6_webhook_failure_handling.1 500 (by decide),
    C6_webhook_failure_handling.1 404 (by decide)⟩

/-- Claim C7, counterexample: in the connected state, a CONFLICT or
UNPAIRED report changes nothing — connection flag, counter and armed
retries all stay as they were (lines 490-494 only log) — whereas a
DISCONNECTED report clears the flag and arms a retry. -/
theorem C7_counterexample :
    supStep connectedState .stateConflict = connectedState
      ∧ supStep connectedState .stateUnpaired = connectedState
      ∧ connectedState.connected = true
      ∧ connectedState.pending = 0
      ∧ (supStep connectedState .stateDisconnected).connected = false
      ∧ (supStep connectedState .stateDisconnected).pending = 1 := by
  decide

/-- Claim C7 as amended: CONFLICT and UNPAIRED reports are only logged —
they leave the supervisor state entirely unchanged, neither setting the
session to disconnected nor driving the reconnect path. -/
theorem C7_amended_holds : ∀ s : SupState,
    supStep s .stateConflict = s ∧ supStep s .stateUnpaired = s :=
  fun _ => ⟨rfl, rfl⟩

/-- Claim C8: the liveness monitor runs on the fixed 30-second interval,
probes exactly when the client exists and the state is CONNECTED, on probe
failure only clears the connection flag, and never touches the attempt
counter or the armed or running start() calls — it never schedules a
reconnect. -/
theorem C8_liveness_monitor :
    CONNECTION_CHECK_INTERVAL = 30000
    ∧ (∀ (s : SupState) (ok : Bool),
        (livenessTick s ok).2 = (s.registered && s.connected))
    ∧ (∀ (s : SupState) (ok : Bool),
        (livenessTick s ok).1
          = if s.registered && s.connected && !ok
            then { s with connected := false } else s)
    ∧ (∀ (s : SupState) (ok : Bool),
        (livenessTick s ok).1.pending = s.pending
        ∧ (livenessTick s ok).1.running = s.running
        ∧ (livenessTick s ok).1.attempts = s.attempts) := by
  refine ⟨rfl, ?_, ?_, ?_⟩ <;>
    · intro s ok
      obtain ⟨a, conn, p, r, reg⟩ := s
      cases reg <;> cases conn <;> cases ok <;> simp [livenessTick]

/-- Claim C9, counterexample: when Chrome is missing, the in-flight
start() returns early (lines 387-391): the counter stays at 0 — below the
maximum — yet nothing is in flight or scheduled, so no retry was scheduled
for this failure path. -/
theorem C9_counterexample :
    (supRun [SupEvent.chromeMissing]).attempts = 0
      ∧ (supRun [SupEvent.chromeMissing]).pending = 0
      ∧ (supRun [SupEvent.chromeMissing]).running = 0
      ∧ (supRun [SupEvent.chromeMissing]).attempts
          < MAX_RECONNECT_ATTEMPTS := by
  decide

/-- Claim C9 as amended: a failure thrown during session creation is
counted and, while the incremented counter is below the maximum, schedules
exactly one retry (and none once the maximum is reached); but the
Chrome-missing precondition failure schedules no retry and counts no
attempt. -/
theorem C9_amended_holds :
    (∀ s : SupState, 0 < s.running →
        s.attempts + 1 < MAX_RECONNECT_ATTEMPTS →
        (supStep s .createFails).pending = s.pending + 1
        ∧ (supStep s .createFails).attempts = s.attempts + 1)
    ∧ (∀ s : SupState, 0 < s.running →
        MAX_RECONNECT_ATTEMPTS ≤ s.attempts + 1 →
        (supStep s .createFails).pending = s.pending
        ∧ (supStep s .createFails).attempts = s.attempts + 1)
    ∧ (∀ s : SupState,
        (supStep s .chromeMissing).pending = s.pending
        ∧ (supStep s .chromeMissing).attempts = s.attempts) := by
  refine ⟨?_, ?_, ?_⟩
  · intro s hr hlt
    simp [supStep, hr, hlt]
  · intro s hr hge
    simp [supStep, hr,
      show ¬ s.attempts + 1 < MAX_RECONNECT_ATTEMPTS by omega]
  · intro s
    by_cases hr : 0 < s.running <;> simp [supStep, hr]

/-- Witness for the amended claim C9 at concrete states. -/
theorem C9_amended_witness :
    (supStep supInit .createFails).pending = supInit.pending + 1
      ∧ (supStep supInit .createFails).attempts = supInit.attempts + 1
      ∧ (supStep { attempts := 9, connected := false, pending := 0,
                   running := 1, registered := true } .createFails).pending
          = 0
      ∧ (supStep supInit .chromeMissing).pending = supInit.pending := by
  have h1 := C9_amended_holds.1 supInit (by decide) (by decide)
  have h2 := C9_amended_holds.2.1
    { attempts := 9, connected := false, pending := 0, running := 1,
      registered := true } (by decide) (by decide)
  have h3 := C9_amended_holds.2.2 supInit
  exact ⟨h1.1, h1.2, h2.1, h3.1⟩

/-- Claim C10: with the configured sync key left at its default (the empty
string, line 345), every /send-message request is rejected 401 — a missing
or empty supplied key is falsy (line 639 first disjunct) and a non-empty
one mismatches the empty configured key, so no request is ever
authorized. -/
theorem C10_empty_key_fails_closed :
    ∀ (clientExists connected : Bool)
      (sendText : String → String → Except String Unit) (req : SendRequest),
      sendMessageHandler SYNC_KEY_DEFAULT clientExists connected sendText req
        = .unauthorized := by
  intro ce conn st req
  have hcond : (jsFalsy req.key
      || (req.key.getD "" != SYNC_KEY_DEFAULT)) = true := by
    rcases hk : req.key with _ | s
    · rfl
    · by_cases hs : s = ""
      · simp [jsFalsy, hs]
      · simp [jsFalsy, SYNC_KEY_DEFAULT, hs]
  simp [sendMessageHandler, hcond]

end JewelSteps
